import Mathlib

/-!
A shallow embedding of the label-scoring engine (`ratingService.js`) and the
resilient classification client (`visionService.js`) of the six4-btw backend.
JavaScript numbers are modelled as exact fractions (`JNum`), arrays as lists,
object literals used as dictionaries as association lists with JavaScript's
last-definition-wins lookup, and the mutable circuit-breaker state as explicit
state passing. Console logging and wall-clock timestamps are not modelled.
-/

namespace Six4

/-- A JavaScript number, modelled as the exact fraction `num / den`.
Every construction in this file keeps `den` positive. -/
structure JNum where
  num : ℤ
  den : ℕ
deriving DecidableEq

/-- An integer JavaScript number. -/
def ji (n : ℤ) : JNum := ⟨n, 1⟩

/-- The fraction `n / d` (used for decimal literals such as `0.8`). -/
def jq (n : ℤ) (d : ℕ) : JNum := ⟨n, d⟩

/-- Strict comparison `a < b` on JavaScript numbers, by cross multiplication
(denominators positive). -/
def jlt (a b : JNum) : Bool := decide (a.num * (b.den : ℤ) < b.num * (a.den : ℤ))

/-- Comparison `a <= b` on JavaScript numbers. -/
def jle (a b : JNum) : Bool := decide (a.num * (b.den : ℤ) ≤ b.num * (a.den : ℤ))

/-- JavaScript multiplication. -/
def jmul (a b : JNum) : JNum := ⟨a.num * b.num, a.den * b.den⟩

/-- JavaScript `Math.round q = ⌊q + 1/2⌋` (round half towards `+∞`). -/
def jsRound (q : JNum) : ℤ := Int.fdiv (2 * q.num + (q.den : ℤ)) (2 * (q.den : ℤ))

/-- JavaScript `Math.round(q * 100) / 100`, the two-decimal rounding applied to confidences. -/
def jsRound2 (q : JNum) : JNum := ⟨jsRound (jmul q (ji 100)), 100⟩

/-- JavaScript `String.prototype.toLowerCase` (ASCII; every string in the dictionaries is
already lower case outside ASCII letters). -/
def jsToLower (s : String) : String := ⟨s.data.map Char.toLower⟩

/-- Whitespace for `String.prototype.trim`. -/
def jsIsSpace (c : Char) : Bool := c == ' ' || c == '\t' || c == '\n' || c == '\r'

/-- JavaScript `String.prototype.trim`. -/
def jsTrim (s : String) : String :=
  ⟨((s.data.dropWhile jsIsSpace).reverse.dropWhile jsIsSpace).reverse⟩

/-- Does the second character list occur at the head of the first? -/
def listStartsWith : List Char → List Char → Bool
  | _, [] => true
  | [], _ :: _ => false
  | c :: cs, p :: ps => c == p && listStartsWith cs ps

/-- Does the second character list occur contiguously inside the first? -/
def listHasSub (s p : List Char) : Bool :=
  match s with
  | [] => listStartsWith [] p
  | _ :: rest => listStartsWith s p || listHasSub rest p

/-- JavaScript `String.prototype.includes`. -/
def strIncludes (s pat : String) : Bool := listHasSub s.data pat.data

/-- JavaScript property lookup on an object written as an entry list: a literal
may repeat a key, and the last definition wins. -/
def jsObjectGet (l : List (String × α)) (k : String) : Option α :=
  l.foldl (fun acc p => if p.1 == k then some p.2 else acc) none

/-- JavaScript `Object.entries`: keys in first-insertion order, each with its last value. -/
def jsObjectEntries (l : List (String × α)) : List (String × α) :=
  (l.foldl (fun ks p => if ks.contains p.1 then ks else ks ++ [p.1]) []).filterMap
    (fun k => (jsObjectGet l k).map (fun v => (k, v)))

/-- JavaScript `Array.prototype.join` with separator `' '`. -/
def joinSpace : List String → String
  | [] => ""
  | [s] => s
  | s :: rest => s ++ " " ++ joinSpace rest

/-- JavaScript `Array.prototype.join` with separator `'; '`. -/
def joinSemicolon : List String → String
  | [] => ""
  | [s] => s
  | s :: rest => s ++ "; " ++ joinSemicolon rest


/-- The keyword dictionary `this.performativeItems`, transcribed entry by entry
from the object literal in the source (duplicate keys kept in literal order;
`jsObjectGet` gives JavaScript's last-definition-wins lookup). -/
def performativeItemsList : List (String × JNum) := [
  ("matcha", ji 15),
  ("tote bag", ji 12),
  ("book", ji 10),
  ("beanie", ji 8),
  ("sunglasses", ji 7),
  ("labubu", ji 20),
  ("toy", ji 15),
  ("figurine", ji 18),
  ("collectible", ji 16),
  ("doll", ji 14),
  ("plush", ji 12),
  ("stuffed animal", ji 10),
  ("stanley cup", ji 18),
  ("airpods", ji 9),
  ("macbook", ji 11),
  ("film camera", ji 14),
  ("coffee", ji 6),
  ("latte", ji 8),
  ("cappuccino", ji 7),
  ("espresso", ji 6),
  ("croissant", ji 9),
  ("avocado", ji 10),
  ("toast", ji 8),
  ("bagel", ji 7),
  ("smoothie", ji 9),
  ("acai bowl", ji 12),
  ("granola", ji 8),
  ("yoga mat", ji 11),
  ("meditation", ji 9),
  ("journal", ji 10),
  ("notebook", ji 8),
  ("planner", ji 9),
  ("succulent", ji 7),
  ("plant", ji 6),
  ("monstera", ji 10),
  ("fiddle leaf fig", ji 12),
  ("pampas grass", ji 11),
  ("candle", ji 8),
  ("diffuser", ji 9),
  ("crystals", ji 10),
  ("sage", ji 8),
  ("incense", ji 7),
  ("vintage", ji 9),
  ("thrift", ji 8),
  ("sustainable", ji 10),
  ("organic", ji 8),
  ("vegan", ji 9),
  ("gluten free", ji 7),
  ("kombucha", ji 9),
  ("green juice", ji 10),
  ("protein shake", ji 6),
  ("workout", ji 7),
  ("gym", ji 5),
  ("pilates", ji 9),
  ("barre", ji 8),
  ("hiking", ji 7),
  ("nature", ji 6),
  ("sunset", ji 8),
  ("golden hour", ji 12),
  ("aesthetic", ji 15),
  ("minimalist", ji 11),
  ("scandinavian", ji 10),
  ("boho", ji 9),
  ("cottagecore", ji 11),
  ("dark academia", ji 13),
  ("light academia", ji 12),
  ("soft girl", ji 10),
  ("clean girl", ji 11),
  ("that girl", ji 14),
  ("tote bag", ji 18),
  ("canvas bag", ji 16),
  ("new yorker", ji 20),
  ("bookstore bag", ji 19),
  ("carhartt", ji 17),
  ("beanie", ji 12),
  ("workwear", ji 14),
  ("film camera", ji 16),
  ("vintage camera", ji 18),
  ("analog camera", ji 17),
  ("blundstone", ji 19),
  ("chelsea boots", ji 16),
  ("leather boots", ji 14),
  ("boots", ji 8),
  ("minimalist jewelry", ji 15),
  ("silver ring", ji 12),
  ("chain necklace", ji 13),
  ("simple jewelry", ji 11),
  ("a24", ji 22),
  ("wes anderson", ji 21),
  ("greta gerwig", ji 20),
  ("indie film", ji 18),
  ("arthouse", ji 17),
  ("criterion", ji 19),
  ("vinyl records", ji 16),
  ("record player", ji 15),
  ("turntable", ji 14),
  ("vinyl", ji 13),
  ("records", ji 11),
  ("natural wine", ji 18),
  ("organic wine", ji 16),
  ("biodynamic", ji 17),
  ("craft beer", ji 12),
  ("local brewery", ji 14),
  ("ipa", ji 10),
  ("pour over coffee", ji 17),
  ("chemex", ji 18),
  ("v60", ji 19),
  ("coffee dripper", ji 16),
  ("coffee filter", ji 12),
  ("bouldering", ji 15),
  ("climbing", ji 10),
  ("rock climbing", ji 12),
  ("climbing shoes", ji 13),
  ("feminist", ji 16),
  ("ally", ji 15),
  ("therapy", ji 14),
  ("boundaries", ji 17),
  ("emotional bandwidth", ji 18),
  ("holding space", ji 19),
  ("oat milk", ji 16),
  ("oat latte", ji 17),
  ("plant milk", ji 14),
  ("non dairy", ji 12),
  ("vulnerability", ji 15),
  ("authentic", ji 13),
  ("mindfulness", ji 14),
  ("philosophy", ji 16),
  ("podcast", ji 11),
  ("intellectual", ji 15),
  ("taylor swift", ji 18),
  ("clairo", ji 20),
  ("phoebe bridgers", ji 19),
  ("mitski", ji 18),
  ("fiona apple", ji 17),
  ("joni mitchell", ji 16),
  ("bjork", ji 15),
  ("lana del rey", ji 14),
  ("solange", ji 16),
  ("frank ocean", ji 17),
  ("japanese breakfast", ji 18),
  ("soccer mommy", ji 17),
  ("snail mail", ji 16),
  ("boygenius", ji 19),
  ("lucy dacus", ji 17),
  ("julien baker", ji 18),
  ("big thief", ji 16),
  ("angel olsen", ji 15),
  ("cat power", ji 14),
  ("beach house", ji 15),
  ("grimes", ji 13),
  ("st vincent", ji 16),
  ("perfume genius", ji 17),
  ("gym selfie", ji 8),
  ("protein powder", ji 6),
  ("gaming setup", ji 7),
  ("mechanical keyboard", ji 5),
  ("crypto", ji 9),
  ("nft", ji 10),
  ("tesla", ji 12),
  ("rolex", ji 11),
  ("supreme", ji 9),
  ("jordan", ji 8),
  ("sneakers", ji 4),
  ("beard oil", ji 6),
  ("whiskey", ji 5),
  ("cigar", ji 7),
  ("motorcycle", ji 8),
  ("watch", ji 6),
  ("cologne", ji 4),
  ("suit", ji 5),
  ("tie", ji 3),
  ("briefcase", ji 4),
  ("green tea", ji 15),
  ("tea", ji 8),
  ("coffee cup", ji 12),
  ("espresso cup", ji 14),
  ("latte art", ji 16),
  ("beverage", ji 5),
  ("juice", ji 7),
  ("green juice", ji 12),
  ("smoothie", ji 9),
  ("drink", ji 4),
  ("avocado toast", ji 15),
  ("sourdough", ji 11),
  ("pastry", ji 6),
  ("croissant", ji 10),
  ("bowl", ji 5),
  ("acai", ji 14),
  ("quinoa", ji 12),
  ("kale", ji 11),
  ("food", ji 3),
  ("organic", ji 9),
  ("local", ji 8),
  ("handbag", ji 10),
  ("messenger bag", ji 14),
  ("canvas bag", ji 16),
  ("bag", ji 6),
  ("purse", ji 8),
  ("backpack", ji 4),
  ("leather bag", ji 11),
  ("eyewear", ji 6),
  ("glasses", ji 5),
  ("reading glasses", ji 12),
  ("vintage glasses", ji 15),
  ("hat", ji 5),
  ("cap", ji 4),
  ("knit hat", ji 10),
  ("wool hat", ji 11),
  ("wristwatch", ji 12),
  ("vintage watch", ji 16),
  ("jewelry", ji 8),
  ("necklace", ji 6),
  ("silver jewelry", ji 12),
  ("bracelet", ji 5),
  ("ring", ji 4),
  ("wedding ring", ji 2),
  ("shoes", ji 4),
  ("leather shoes", ji 8),
  ("boots", ji 7),
  ("dress shoes", ji 5),
  ("sneakers", ji 3),
  ("footwear", ji 3),
  ("water bottle", ji 8),
  ("bottle", ji 5),
  ("tumbler", ji 10),
  ("headphones", ji 7),
  ("earbuds", ji 8),
  ("wireless earphones", ji 9),
  ("laptop", ji 8),
  ("computer", ji 6),
  ("apple", ji 10),
  ("iphone", ji 9),
  ("smartphone", ji 6),
  ("phone", ji 4),
  ("tablet", ji 5),
  ("ipad", ji 8),
  ("camera", ji 8),
  ("vintage camera", ji 12),
  ("polaroid", ji 11),
  ("photography", ji 6),
  ("lens", ji 5),
  ("exercise mat", ji 9),
  ("yoga", ji 8),
  ("dumbbell", ji 6),
  ("weight", ji 5),
  ("fitness", ji 4),
  ("supplement", ji 8),
  ("shaker bottle", ji 7),
  ("houseplant", ji 8),
  ("potted plant", ji 7),
  ("flower", ji 4),
  ("vase", ji 5),
  ("pot", ji 3),
  ("scented candle", ji 9),
  ("essential oil", ji 8),
  ("crystal", ji 9),
  ("gemstone", ji 8),
  ("gaming", ji 8),
  ("video game", ji 6),
  ("controller", ji 7),
  ("keyboard", ji 6),
  ("mouse", ji 4),
  ("headset", ji 7),
  ("monitor", ji 5),
  ("pc", ji 6),
  ("gaming chair", ji 9),
  ("car", ji 8),
  ("luxury car", ji 15),
  ("sports car", ji 12),
  ("vehicle", ji 5),
  ("luxury watch", ji 16),
  ("expensive watch", ji 14),
  ("formal wear", ji 8),
  ("dress shirt", ji 7),
  ("leather bag", ji 9),
  ("beer", ji 7),
  ("alcohol", ji 6),
  ("bourbon", ji 9),
  ("wine", ji 5),
  ("cocktail", ji 6),
  ("protein", ji 8),
  ("whey protein", ji 9),
  ("supplement bottle", ji 7),
  ("gym equipment", ji 6),
  ("barbell", ji 7),
  ("weight plate", ji 5),
  ("beard", ji 6),
  ("mustache", ji 5),
  ("perfume", ji 6),
  ("grooming", ji 5),
  ("razor", ji 4),
  ("shaving", ji 3),
  ("cigarette", ji 5),
  ("smoking", ji 4),
  ("tobacco", ji 6),
  ("bike", ji 6),
  ("bicycle", ji 4),
  ("scooter", ji 5),
  ("vinyl record", ji 14),
  ("record", ji 10),
  ("turntable", ji 15),
  ("record player", ji 13),
  ("vintage stereo", ji 12),
  ("speaker", ji 6),
  ("audio equipment", ji 8),
  ("headphones", ji 7),
  ("earbuds", ji 6),
  ("music", ji 4),
  ("album", ji 8),
  ("cd", ji 5),
  ("cassette", ji 11),
  ("tape", ji 9),
  ("book", ji 10),
  ("novel", ji 12),
  ("poetry", ji 14),
  ("literature", ji 15),
  ("paperback", ji 8),
  ("hardcover", ji 9),
  ("bookmark", ji 7),
  ("reading", ji 6),
  ("library", ji 8),
  ("bookstore", ji 12),
  ("independent bookstore", ji 16),
  ("nike", ji 8),
  ("adidas", ji 7),
  ("apple logo", ji 10),
  ("brand", ji 5),
  ("logo", ji 4)]

/-- The OCR text dictionary `textPatterns` from `processTextAnnotations`
(all weights are integer literals and the literal has no duplicate keys). -/
def textPatternsList : List (String × ℤ) := [
  ("new yorker", 20),
  ("the new yorker", 20),
  ("criterion", 19),
  ("a24", 22),
  ("penguin classics", 18),
  ("verso", 17),
  ("mcsweeney", 16),
  ("blue bottle", 16),
  ("intelligentsia", 15),
  ("stumptown", 14),
  ("counter culture", 13),
  ("whole foods", 12),
  ("trader joe", 10),
  ("patagonia", 14),
  ("everlane", 15),
  ("uniqlo", 11),
  ("muji", 13),
  ("cos", 12),
  ("arket", 11),
  ("apple", 10),
  ("macbook", 12),
  ("iphone", 8),
  ("airpods", 9),
  ("david foster wallace", 20),
  ("zadie smith", 18),
  ("elena ferrante", 17),
  ("knausgård", 19),
  ("karl ove", 19),
  ("sally rooney", 16),
  ("ocean vuong", 15),
  ("joan didion", 17),
  ("susan sontag", 18),
  ("haruki murakami", 14),
  ("normal people", 16),
  ("conversations with friends", 15),
  ("my struggle", 19),
  ("outline", 17),
  ("transit", 16),
  ("kudos", 16),
  ("simone de beauvoir", 19),
  ("the second sex", 19),
  ("bell hooks", 18),
  ("all about love", 17),
  ("feminism is for everybody", 18),
  ("audre lorde", 18),
  ("sister outsider", 17),
  ("roxane gay", 16),
  ("bad feminist", 16),
  ("hunger", 15),
  ("chimamanda ngozi adichie", 17),
  ("we should all be feminists", 17),
  ("americanah", 16),
  ("margaret atwood", 15),
  ("the handmaids tale", 16),
  ("cat's eye", 14),
  ("sylvia plath", 17),
  ("the bell jar", 17),
  ("ariel", 16),
  ("virginia woolf", 18),
  ("a room of one's own", 18),
  ("mrs dalloway", 16),
  ("to the lighthouse", 15),
  ("toni morrison", 17),
  ("beloved", 16),
  ("the bluest eye", 15),
  ("song of solomon", 15),
  ("maya angelou", 15),
  ("i know why the caged bird sings", 15),
  ("adrienne rich", 16),
  ("diving into the wreck", 16),
  ("naomi wolf", 14),
  ("the beauty myth", 14),
  ("gloria steinem", 15),
  ("my life on the road", 14),
  ("rebecca solnit", 17),
  ("men explain things to me", 18),
  ("hope in the dark", 16),
  ("maggie nelson", 18),
  ("the argonauts", 18),
  ("bluets", 17),
  ("anne carson", 19),
  ("autobiography of red", 19),
  ("nox", 18),
  ("jenny holzer", 16),
  ("truisms", 16),
  ("kathy acker", 17),
  ("blood and guts in high school", 17),
  ("chris kraus", 18),
  ("i love dick", 18),
  ("eileen myles", 17),
  ("chelsea girls", 17),
  ("jia tolentino", 16),
  ("trick mirror", 16),
  ("ottessa moshfegh", 15),
  ("my education", 15),
  ("eileen", 14),
  ("rachel cusk", 17),
  ("outline trilogy", 17),
  ("a life's work", 16),
  ("jenny offill", 16),
  ("dept of speculation", 16),
  ("weather", 15),
  ("lydia davis", 17),
  ("the collected stories", 17),
  ("sheila heti", 16),
  ("how should a person be", 16),
  ("motherhood", 15),
  ("miranda july", 16),
  ("the first bad man", 16),
  ("no one belongs here more than you", 15),
  ("n+1", 19),
  ("paris review", 18),
  ("granta", 17),
  ("london review", 18),
  ("artforum", 16),
  ("frieze", 15),
  ("monocle", 14),
  ("pitchfork", 15),
  ("the fader", 14),
  ("rolling stone", 10),
  ("taylor swift", 18),
  ("clairo", 20),
  ("claire cottrill", 20),
  ("phoebe bridgers", 19),
  ("mitski", 18),
  ("fiona apple", 17),
  ("joni mitchell", 16),
  ("bjork", 15),
  ("lana del rey", 14),
  ("solange", 16),
  ("japanese breakfast", 18),
  ("soccer mommy", 17),
  ("snail mail", 16),
  ("boygenius", 19),
  ("lucy dacus", 17),
  ("julien baker", 18),
  ("big thief", 16),
  ("angel olsen", 15),
  ("cat power", 14),
  ("beach house", 15),
  ("grimes", 13),
  ("st vincent", 16),
  ("perfume genius", 17),
  ("weyes blood", 16),
  ("king woman", 15),
  ("frankie cosmos", 15),
  ("girlpool", 16),
  ("y la bamba", 14),
  ("waxahatchee", 17),
  ("courtney barnett", 15),
  ("sharon van etten", 16),
  ("patti smith", 17),
  ("kim deal", 16),
  ("kim gordon", 17),
  ("thurston moore", 15),
  ("sonic youth", 16),
  ("labubu", 20),
  ("pop mart", 18),
  ("sonny angel", 16),
  ("molly", 15),
  ("kaws", 17),
  ("bearbrick", 16),
  ("funko", 12),
  ("designer toy", 18),
  ("art toy", 17),
  ("collectible figure", 16),
  ("matcha", 15),
  ("matcha latte", 17),
  ("green tea latte", 16),
  ("ceremonial matcha", 18),
  ("oat milk matcha", 19),
  ("sub pop", 16),
  ("matador", 17),
  ("merge", 15),
  ("domino", 14),
  ("rough trade", 16),
  ("4ad", 17),
  ("kranky", 15),
  ("constellation", 16),
  ("thrill jockey", 15),
  ("drag city", 16)]

/-- The verdict table `this.scoreMessages` (threshold, message). -/
def scoreMessages : List (ℤ × String) := [
  (0, "Refreshingly authentic - no performative signaling detected!"),
  (5, "Barely registering on the aesthetic consciousness scale"),
  (15, "Subtle hints of curated lifestyle choices"),
  (25, "Some performative awareness emerging"),
  (35, "Entering soft boy adjacent territory"),
  (45, "Moderate indie aesthetic energy"),
  (55, "Solidly in the 'that guy who reads' zone"),
  (65, "Strong performative cultural signaling"),
  (75, "Peak indie boy energy with literary pretensions"),
  (85, "Maximum cultural capital flexing detected"),
  (95, "Elite performative male status achieved"),
  (100, "Transcendent level of curated masculinity - you've become the aesthetic!")]

/-- A label returned by the vision provider (`description` plus its `score`
confidence; a missing `description` behaves like the empty string and `score || 0`
is the identity on numbers). -/
structure Label where
  description : String
  score : JNum
deriving DecidableEq

/-- An OCR text span (`textAnnotations[i].description`). -/
structure TextAnn where
  description : String
deriving DecidableEq

/-- An entry of `detectedItems` as pushed by `calculateRating` /
`processTextAnnotations` (the `matchScore` debug field of label matches is not
part of the serialized result and is not modelled). -/
structure DetectedItem where
  item : String
  points : ℤ
  confidence : JNum
  matchType : String
  originalLabel : String
deriving DecidableEq

/-- A match produced by `findMatches`. -/
structure Match where
  keyword : String
  matchType : String
  matchScore : JNum
  adjustedPoints : ℤ
deriving DecidableEq

/-- One alternative of the curated `semanticMap` table. -/
structure SemMapEntry where
  keyword : String
  score : JNum
  condition : Option (String → List String → Bool) := none

/-- The curated generic-label table `semanticMap` from `getSemanticMatches`. -/
def semanticMap : List (String × List SemMapEntry) := [
  ("beverage", [
    ⟨"matcha", jq 4 10, some fun text _ => strIncludes text "green" || strIncludes text "tea"⟩,
    ⟨"coffee", jq 7 10, none⟩,
    ⟨"oat milk", jq 4 10, some fun text _ => strIncludes text "milk"⟩]),
  ("drink", [
    ⟨"matcha", jq 3 10, some fun text _ => strIncludes text "green" || strIncludes text "tea"⟩,
    ⟨"kombucha", jq 3 10, none⟩,
    ⟨"green juice", jq 4 10, none⟩,
    ⟨"coffee", jq 6 10, none⟩]),
  ("coffee cup", [
    ⟨"pour over coffee", jq 8 10, none⟩,
    ⟨"coffee", jq 9 10, none⟩]),
  ("tea", [
    ⟨"matcha", jq 9 10, none⟩,
    ⟨"green tea", jq 8 10, none⟩]),
  ("green tea", [
    ⟨"matcha", jq 9 10, none⟩]),
  ("latte", [
    ⟨"matcha latte", jq 6 10, some fun text _ => strIncludes text "green" || strIncludes text "matcha"⟩,
    ⟨"oat latte", jq 7 10, none⟩]),
  ("bag", [
    ⟨"tote bag", jq 7 10, none⟩,
    ⟨"canvas bag", jq 6 10, none⟩]),
  ("handbag", [
    ⟨"tote bag", jq 8 10, none⟩,
    ⟨"canvas bag", jq 7 10, none⟩]),
  ("eyewear", [
    ⟨"sunglasses", jq 9 10, none⟩]),
  ("sunglasses", [
    ⟨"sunglasses", jq 10 10, none⟩]),
  ("hat", [
    ⟨"beanie", jq 6 10, none⟩]),
  ("toy", [
    ⟨"labubu", jq 4 10, none⟩,
    ⟨"designer toy", jq 7 10, none⟩,
    ⟨"collectible", jq 6 10, none⟩]),
  ("figurine", [
    ⟨"labubu", jq 5 10, none⟩,
    ⟨"collectible figure", jq 8 10, none⟩,
    ⟨"art toy", jq 7 10, none⟩]),
  ("doll", [
    ⟨"labubu", jq 6 10, none⟩,
    ⟨"designer toy", jq 5 10, none⟩]),
  ("collectible", [
    ⟨"labubu", jq 4 10, none⟩,
    ⟨"art toy", jq 6 10, none⟩]),
  ("laptop", [
    ⟨"macbook", jq 7 10, some fun text _ => strIncludes text "apple" || strIncludes text "mac"⟩]),
  ("headphones", [
    ⟨"airpods", jq 6 10, some fun text _ => strIncludes text "wireless" || strIncludes text "apple"⟩]),
  ("water bottle", [
    ⟨"stanley cup", jq 4 10, none⟩,
    ⟨"tumbler", jq 6 10, none⟩]),
  ("camera", [
    ⟨"film camera", jq 7 10, some fun text _ => strIncludes text "vintage" || strIncludes text "analog"⟩,
    ⟨"vintage camera", jq 8 10, none⟩]),
  ("plant", [
    ⟨"monstera", jq 3 10, none⟩,
    ⟨"fiddle leaf fig", jq 2 10, none⟩,
    ⟨"succulent", jq 4 10, none⟩]),
  ("houseplant", [
    ⟨"monstera", jq 4 10, none⟩,
    ⟨"fiddle leaf fig", jq 3 10, none⟩,
    ⟨"succulent", jq 5 10, none⟩]),
  ("food", [
    ⟨"avocado toast", jq 3 10, some fun text _ => strIncludes text "avocado" || strIncludes text "toast"⟩,
    ⟨"croissant", jq 4 10, none⟩,
    ⟨"acai bowl", jq 3 10, none⟩]),
  ("pastry", [
    ⟨"croissant", jq 8 10, none⟩]),
  ("exercise mat", [
    ⟨"yoga mat", jq 9 10, none⟩]),
  ("supplement", [
    ⟨"protein shake", jq 6 10, none⟩,
    ⟨"protein powder", jq 7 10, none⟩]),
  ("music", [
    ⟨"vinyl records", jq 4 10, none⟩,
    ⟨"indie music", jq 5 10, none⟩]),
  ("album", [
    ⟨"vinyl record", jq 7 10, none⟩,
    ⟨"indie album", jq 6 10, none⟩]),
  ("record", [
    ⟨"vinyl record", jq 8 10, none⟩]),
  ("audio equipment", [
    ⟨"turntable", jq 7 10, none⟩,
    ⟨"record player", jq 8 10, none⟩]),
  ("person", [
    ⟨"indie artist", jq 2 10, some fun _ ls => ls.any fun l =>
      ["music", "performance", "singer", "musician", "artist"].contains (jsToLower l)⟩]),
  ("woman", [
    ⟨"female artist", jq 3 10, some fun _ ls => ls.any fun l =>
      ["music", "performance", "singer", "musician", "artist"].contains (jsToLower l)⟩]),
  ("performer", [
    ⟨"indie artist", jq 6 10, none⟩]),
  ("musician", [
    ⟨"indie artist", jq 7 10, none⟩]),
  ("singer", [
    ⟨"indie artist", jq 7 10, none⟩]),
  ("artist", [
    ⟨"indie artist", jq 5 10, none⟩]),
  ("book", [
    ⟨"feminist literature", jq 3 10, some fun text _ => strIncludes text "feminist" || strIncludes text "women"⟩,
    ⟨"indie literature", jq 4 10, none⟩,
    ⟨"poetry", jq 3 10, none⟩]),
  ("novel", [
    ⟨"literary fiction", jq 6 10, none⟩,
    ⟨"indie novel", jq 5 10, none⟩]),
  ("literature", [
    ⟨"feminist literature", jq 5 10, none⟩,
    ⟨"contemporary literature", jq 4 10, none⟩])]

/-- A semantic match before point weighting (`getSemanticMatches` output row). -/
structure SemMatch where
  keyword : String
  score : JNum
  points : JNum

/-- The matcher `getSemanticMatches`: look the label up in `semanticMap`, keep the
alternatives whose condition holds of `(labelText, all label descriptions)`,
attach the dictionary weight (`|| 0`), and drop matches with no points. -/
def getSemanticMatches (labelText : String) (allLabels : List Label) : List SemMatch :=
  let descs := allLabels.map fun l => l.description
  let ms := match jsObjectGet semanticMap labelText with
    | none => []
    | some entries => entries.filterMap fun (e : SemMapEntry) =>
        if (e.condition.map fun (c : String → List String → Bool) => c labelText descs).getD true then
          some (⟨e.keyword, e.score, (jsObjectGet performativeItemsList e.keyword).getD (ji 0)⟩ : SemMatch)
        else none
  ms.filter fun m => jlt (ji 0) m.points

/-- The Levenshtein-distance matrix of `levenshteinDistance`:
`levMatrix s2 s1 i j` is `matrix[i][j]`, the value the imperative fill computes
for the first `i` characters of `str2` against the first `j` characters of `str1`. -/
def levMatrix (s2 s1 : List Char) : ℕ → ℕ → ℕ
  | 0, j => j
  | i + 1, 0 => i + 1
  | i + 1, j + 1 =>
    if s2.getD i ' ' == s1.getD j ' ' then levMatrix s2 s1 i j
    else
      min (levMatrix s2 s1 i j + 1)
        (min (levMatrix s2 s1 (i + 1) j + 1) (levMatrix s2 s1 i (j + 1) + 1))
termination_by i j => (i, j)

/-- The function `levenshteinDistance`: `matrix[str2.length][str1.length]`. -/
def levenshteinDistance (str1 str2 : String) : ℕ :=
  levMatrix str2.data str1.data str2.length str1.length

/-- The function `calculateStringSimilarity`: `(longer.length - distance) / longer.length`,
with `1.0` for two empty strings. -/
def calculateStringSimilarity (str1 str2 : String) : JNum :=
  let longer := if str1.length > str2.length then str1 else str2
  let shorter := if str1.length > str2.length then str2 else str1
  if longer.length = 0 then ji 1
  else ⟨(longer.length : ℤ) - (levenshteinDistance longer shorter : ℤ), longer.length⟩

/-- The matcher `findMatches`: exact dictionary hit short-circuits; otherwise semantic
matches, falling back to fuzzy matches over every dictionary entry when there
is no semantic match; finally sort by `matchScore` descending (JavaScript's
stable sort) and keep the top 3. -/
def findMatches (labelText : String) (confidence : JNum) (allLabels : List Label) : List Match :=
  match jsObjectGet performativeItemsList labelText with
  | some w => [⟨labelText, "exact", ji 1, jsRound (jmul w confidence)⟩]
  | none =>
    let semMs := (getSemanticMatches labelText allLabels).map fun m =>
      (⟨m.keyword, "semantic", m.score, jsRound (jmul (jmul m.points confidence) m.score)⟩ : Match)
    let ms := if semMs.isEmpty then
        (jsObjectEntries performativeItemsList).filterMap fun kp =>
          let similarity := calculateStringSimilarity labelText kp.1
          if jlt (jq 1 2) similarity then
            some (⟨kp.1, "partial", similarity, jsRound (jmul (jmul kp.2 confidence) similarity)⟩ : Match)
          else none
      else semMs
    (List.insertionSort (fun a b => jle b.matchScore a.matchScore = true) ms).take 3


/-- The OCR matcher `processTextAnnotations`: scan the concatenated lower-cased OCR text for
every text-dictionary phrase; a substring hit emits a full-weight `text` match
(confidence 0.9), otherwise a single-word phrase is sought inside each span of
comparable length and emits a `text-partial` match at 80% weight (confidence 0.8). -/
def processTextAnnotations (textAnnotations : List TextAnn) : List DetectedItem :=
  let allText := jsToLower (joinSpace (textAnnotations.map fun a => a.description))
  (jsObjectEntries textPatternsList).flatMap fun pw =>
    if strIncludes allText pw.1 then
      [⟨pw.1, pw.2, jq 9 10, "text", "Text: \"" ++ pw.1 ++ "\""⟩]
    else if (pw.1.splitOn " ").length == 1 then
      textAnnotations.filterMap fun ann =>
        let text := jsToLower ann.description
        if strIncludes text pw.1 && decide (text.length ≤ pw.1.length + 3) then
          some ⟨pw.1, jsRound (jmul (ji pw.2) (jq 8 10)), jq 8 10, "text-partial",
            "Text: \"" ++ ann.description ++ "\""⟩
        else none
    else []

/-- The fixed synergy rules of `calculateContextualAdjustments`. -/
def synergiesList : List (List String × ℤ × String) := [
  (["tote bag", "book"], 8, "Literary aesthetic combo"),
  (["film camera", "vintage"], 6, "Nostalgic photography aesthetic"),
  (["matcha", "oat milk"], 5, "Peak alternative beverage combo"),
  (["beanie", "tote bag"], 4, "Indie boy starter pack"),
  (["macbook", "coffee"], 3, "Digital nomad aesthetic"),
  (["yoga mat", "plant"], 4, "Wellness lifestyle combo"),
  (["vinyl", "clairo"], 7, "Indie music connoisseur aesthetic"),
  (["book", "feminist"], 6, "Performative feminist reading"),
  (["tote bag", "feminist literature"], 8, "Peak performative male feminist aesthetic"),
  (["coffee", "book", "female author"], 5, "Intellectual feminist ally vibes"),
  (["vinyl records", "female artist"], 6, "Supporting female musicians (performatively)")]

/-- The fixed category-penalty rules (vocabulary, penalty, reason). -/
def contextPenalties : List (List String × ℤ × String) := [
  (["gym", "workout", "fitness", "muscle", "bodybuilding"], -5, "Traditional gym culture detected"),
  (["gaming", "video game", "controller", "xbox", "playstation"], -3, "Gaming culture detected"),
  (["suit", "tie", "formal", "business"], -4, "Corporate aesthetic detected")]

/-- The diversity-bonus category table. -/
def categoriesList : List (String × List String) := [
  ("beverages", ["matcha", "coffee", "tea", "kombucha", "oat milk"]),
  ("fashion", ["tote bag", "beanie", "sunglasses", "boots"]),
  ("tech", ["macbook", "airpods", "film camera"]),
  ("lifestyle", ["yoga mat", "plant", "book", "candle"]),
  ("music", ["vinyl", "clairo", "phoebe bridgers", "mitski", "taylor swift", "record player"]),
  ("literature", ["feminist", "sally rooney", "joan didion", "susan sontag", "book", "novel"]),
  ("cultural", ["new yorker", "criterion", "a24", "pitchfork", "paris review"])]

/-- The result of `calculateContextualAdjustments`. -/
structure CtxAdjustment where
  adjustment : ℤ
  reason : String
deriving DecidableEq

/-- The adjuster `calculateContextualAdjustments`: synergy bonuses (substring match in either
direction against detected item names), category penalties over the raw label
texts, the category-diversity bonus and the high-confidence bonus, summed into
one signed integer (`Math.round` of an integer is itself). -/
def calculateContextualAdjustments (detectedItems : List DetectedItem)
    (allLabels : List Label) : CtxAdjustment :=
  let itemNames := detectedItems.map fun it => it.item
  let allLabelTexts := allLabels.map fun l => jsToLower l.description
  let step1 := synergiesList.foldl (fun (acc : ℤ × List String) rule =>
      if rule.1.all fun item => itemNames.any fun detected =>
          strIncludes detected item || strIncludes item detected then
        (acc.1 + rule.2.1, acc.2 ++ [rule.2.2])
      else acc) (0, [])
  let step2 := contextPenalties.foldl (fun acc rule =>
      if allLabelTexts.any fun label => rule.1.any fun term => strIncludes label term then
        (acc.1 + rule.2.1, acc.2 ++ [rule.2.2])
      else acc) step1
  let categoriesRepresented := categoriesList.filter fun c =>
      c.2.any fun item => itemNames.contains item
  let step3 :=
    if categoriesRepresented.length ≥ 3 then
      (step2.1 + 6, step2.2 ++ ["Multi-category performative lifestyle"])
    else if categoriesRepresented.length = 2 then
      (step2.1 + 3, step2.2 ++ ["Cross-category aesthetic awareness"])
    else step2
  let highConfidenceItems := detectedItems.filter fun it =>
      jlt (jq 85 100) it.confidence && decide (10 ≤ it.points)
  let step4 :=
    if highConfidenceItems.length ≥ 2 then
      (step3.1 + 4, step3.2 ++ ["High-confidence performative items detected"])
    else step3
  ⟨step4.1, if step4.2.isEmpty then "No contextual adjustments" else joinSemicolon step4.2⟩

/-- The verdict selector `generateMessage`: thresholds in descending order, first one `≤ score` wins,
with the 0-threshold message as fallback. -/
def generateMessage (score : ℤ) : String :=
  let scoreRanges := List.insertionSort (fun a b : ℤ => b ≤ a) (scoreMessages.map fun p => p.1)
  match scoreRanges.find? fun t => decide (score ≥ t) with
  | some t => ((scoreMessages.find? fun p => p.1 == t).map fun p => p.2).getD ""
  | none => ((scoreMessages.find? fun p => p.1 == 0).map fun p => p.2).getD ""

/-- The optional second argument of `calculateRating`. -/
structure RatingOptions where
  textAnnotations : Option (List TextAnn) := none

/-- The `metadata` of a rating result (the `processedAt` wall-clock timestamp is
not modelled). -/
structure RatingMetadata where
  totalLabelsProcessed : ℕ
  performativeItemsFound : ℕ
  rawScore : ℤ
  cappedScore : ℤ
deriving DecidableEq

/-- The result of `calculateRating` (the `debug.processedLabels` echo of the
input is not modelled). -/
structure RatingResult where
  score : ℤ
  message : String
  detectedItems : List DetectedItem
  metadata : RatingMetadata
deriving DecidableEq

/-- The running state of `calculateRating`'s scoring loops: the score total,
the `usedKeywords` dedup map (only key membership is ever consulted) and the
`detectedItems` list. -/
structure ScoreAcc where
  totalScore : ℤ
  usedKeywords : List String
  detectedItems : List DetectedItem

/-- One `usedKeywords.has / set / push` step of `calculateRating`. -/
def addIfUnused (key : String) (pts : ℤ) (it : DetectedItem) (acc : ScoreAcc) : ScoreAcc :=
  if acc.usedKeywords.contains key then acc
  else ⟨acc.totalScore + pts, key :: acc.usedKeywords, acc.detectedItems ++ [it]⟩

/-- The OCR pass of `calculateRating` (keys `"text:" ++ item`). -/
def applyTextMatches : List DetectedItem → ScoreAcc → ScoreAcc
  | [], acc => acc
  | m :: rest, acc => applyTextMatches rest (addIfUnused ("text:" ++ m.item) m.points m acc)

/-- The inner loop over one label's matches (keys `"label:" ++ keyword ++ ":" ++ labelText`). -/
def applyLabelMatches (labelText : String) (lbl : Label) : List Match → ScoreAcc → ScoreAcc
  | [], acc => acc
  | m :: rest, acc =>
    applyLabelMatches labelText lbl rest
      (addIfUnused ("label:" ++ m.keyword ++ ":" ++ labelText) m.adjustedPoints
        ⟨m.keyword, m.adjustedPoints, lbl.score, m.matchType, lbl.description⟩ acc)

/-- The label pass of `calculateRating`: labels with a falsy `description` are
skipped, the rest are matched via `findMatches` on the lower-cased trimmed text. -/
def applyLabels (allLabels : List Label) : List Label → ScoreAcc → ScoreAcc
  | [], acc => acc
  | lbl :: rest, acc =>
    if lbl.description == "" then applyLabels allLabels rest acc
    else
      let labelText := jsTrim (jsToLower lbl.description)
      let ms := findMatches labelText lbl.score allLabels
      applyLabels allLabels rest (applyLabelMatches labelText lbl ms acc)

/-- The scoring engine `calculateRating` (the `Array.isArray` guard is satisfied by typing): OCR
pass, label pass, contextual adjustment, upper clamp at 100, verdict message,
and the serialized result with confidences rounded to two decimals. -/
def calculateRating (labels : List Label) (options : RatingOptions) : RatingResult :=
  let acc0 : ScoreAcc := ⟨0, [], []⟩
  let acc1 := match options.textAnnotations with
    | some anns => applyTextMatches (processTextAnnotations anns) acc0
    | none => acc0
  let acc := applyLabels labels labels acc1
  let ctx := calculateContextualAdjustments acc.detectedItems labels
  let totalScore := acc.totalScore + ctx.adjustment
  let finalScore := min totalScore 100
  { score := finalScore
    message := generateMessage finalScore
    detectedItems := acc.detectedItems.map fun it => { it with confidence := jsRound2 it.confidence }
    metadata := ⟨labels.length, acc.detectedItems.length, totalScore, finalScore⟩ }

/-- The bulk update `updatePerformativeItems`: validate and merge entry by entry; an invalid
weight throws, leaving the entries already processed merged (no rollback).
Returns the resulting dictionary and the error, if any. -/
def updatePerformativeItems : List (String × JNum) → List (String × JNum) →
    List (String × JNum) × Option String
  | items, [] => (items, none)
  | items, (item, score) :: rest =>
    if jlt score (ji 0) || jlt (ji 100) score then
      (items, some ("Invalid score for item \"" ++ item ++ "\": must be a number between 0 and 100"))
    else updatePerformativeItems (items ++ [(jsToLower item, score)]) rest


/-- Circuit breaker states. -/
inductive CBState where
  | CLOSED
  | HALF_OPEN
  | OPEN
deriving DecidableEq

/-- The `this.circuitBreaker` record of `VisionService` (thresholds are carried
as fields, as in the source object). -/
structure CircuitBreaker where
  state : CBState
  failureCount : ℕ
  failureThreshold : ℕ
  resetTimeout : ℤ
  lastFailureTime : Option ℤ
  successCount : ℕ
  halfOpenSuccessThreshold : ℕ
deriving DecidableEq

/-- The breaker as initialized in the constructor. -/
def initCircuitBreaker : CircuitBreaker := ⟨.CLOSED, 0, 5, 60000, none, 0, 2⟩

/-- The guard `checkCircuitBreaker`: in OPEN, once `resetTimeout` has elapsed since
`lastFailureTime` (a `null` time coerces to 0), move to HALF_OPEN with
`successCount` reset; otherwise no change. Returns the updated breaker and the
state it reports. -/
def checkCircuitBreaker (cb : CircuitBreaker) (now : ℤ) : CircuitBreaker × CBState :=
  match cb.state with
  | .OPEN =>
    if now - cb.lastFailureTime.getD 0 ≥ cb.resetTimeout then
      ({ cb with state := .HALF_OPEN, successCount := 0 }, .HALF_OPEN)
    else (cb, .OPEN)
  | s => (cb, s)

/-- The transition `recordSuccess`. -/
def recordSuccess (cb : CircuitBreaker) : CircuitBreaker :=
  if cb.state = .HALF_OPEN then
    let cb := { cb with successCount := cb.successCount + 1 }
    if cb.successCount ≥ cb.halfOpenSuccessThreshold then
      { cb with state := .CLOSED, failureCount := 0, successCount := 0 }
    else cb
  else if cb.state = .CLOSED then { cb with failureCount := 0 }
  else cb

/-- The transition `recordFailure` (at time `now = Date.now()`). -/
def recordFailure (cb : CircuitBreaker) (now : ℤ) : CircuitBreaker :=
  let cb := { cb with failureCount := cb.failureCount + 1, lastFailureTime := some now }
  if cb.state = .HALF_OPEN then { cb with state := .OPEN, successCount := 0 }
  else if cb.state = .CLOSED ∧ cb.failureCount ≥ cb.failureThreshold then
    { cb with state := .OPEN }
  else cb

/-- A JavaScript `Error` as used by the vision service: a message and an
optional `code` property. -/
structure VisionError where
  message : String
  code : Option String
deriving DecidableEq

/-- The fixed non-retryable code list of `isNonRetryableError`. -/
def nonRetryableCodes : List String :=
  ["UNAUTHENTICATED", "PERMISSION_DENIED", "INVALID_ARGUMENT", "QUOTA_EXCEEDED"]

/-- The classifier `isNonRetryableError`: the message contains one of the codes, or `error.code`
equals one of them. -/
def isNonRetryableError (e : VisionError) : Bool :=
  nonRetryableCodes.any fun code => strIncludes e.message code || e.code == some code

/-- The classifier `transformError`: classify a raw error into an application error by message
sniffing (the `originalError` back-pointer of the generic case is not modelled). -/
def transformError (e : VisionError) : VisionError :=
  if strIncludes e.message "timeout" then
    ⟨"Vision API request timed out", some "VISION_TIMEOUT"⟩
  else if strIncludes e.message "UNAUTHENTICATED" then
    ⟨"Vision API authentication failed", some "VISION_AUTH_ERROR"⟩
  else if strIncludes e.message "QUOTA_EXCEEDED" then
    ⟨"Vision API quota exceeded", some "VISION_QUOTA_ERROR"⟩
  else if strIncludes e.message "PERMISSION_DENIED" then
    ⟨"Vision API permission denied", some "VISION_PERMISSION_ERROR"⟩
  else ⟨"Vision API service error", some "VISION_SERVICE_ERROR"⟩

deriving instance DecidableEq for Except

/-- The observable outcome of `executeWithRetry`: the value or final error, how
many attempts ran, and the inter-attempt delays slept (in ms, in order). -/
structure RetryTrace (α : Type) where
  result : Except VisionError α
  attemptsMade : ℕ
  delays : List ℕ
deriving DecidableEq

/-- The retry loop of `executeWithRetry`, with the outcome of attempt `n` given
by `outcomes n`. `fuel` bounds the remaining loop iterations exactly as the
`for` bound does: calls start at `attempt = 1` with `fuel = maxRetries`, so
`attempt + fuel = maxRetries + 1` throughout and the 0-fuel arm (which ends the
loop the way loop exit does) is never reached. -/
def retryAux (outcomes : ℕ → Except VisionError α) (maxRetries baseDelay : ℕ) :
    ℕ → ℕ → List ℕ → RetryTrace α
  | attempt, 0, delays =>
    match outcomes attempt with
    | .ok v => ⟨.ok v, attempt, delays⟩
    | .error e =>
      if isNonRetryableError e then ⟨.error e, attempt, delays⟩
      else ⟨.error (transformError e), attempt, delays⟩
  | attempt, fuel + 1, delays =>
    match outcomes attempt with
    | .ok v => ⟨.ok v, attempt, delays⟩
    | .error e =>
      if isNonRetryableError e then ⟨.error e, attempt, delays⟩
      else if attempt < maxRetries then
        retryAux outcomes maxRetries baseDelay (attempt + 1) fuel
          (delays ++ [baseDelay * 2 ^ (attempt - 1)])
      else ⟨.error (transformError e), attempt, delays⟩

/-- The wrapper `executeWithRetry` with attempt outcomes `outcomes` and the service's
`maxRetries` / `retryDelay` configuration. -/
def executeWithRetry (outcomes : ℕ → Except VisionError α) (maxRetries baseDelay : ℕ) :
    RetryTrace α :=
  retryAux outcomes maxRetries baseDelay 1 maxRetries []

/-- The synthetic error thrown while the circuit is OPEN. -/
def circuitOpenError : VisionError :=
  ⟨"Vision service circuit breaker is OPEN - service temporarily unavailable",
    some "VISION_CIRCUIT_OPEN"⟩

/-- The observable outcome of one `analyzeImage` call: the breaker afterwards,
the result, the number of provider attempts, and the retry delays. -/
structure AnalyzeOutcome (α : Type) where
  breaker : CircuitBreaker
  result : Except VisionError α
  providerAttempts : ℕ
  delays : List ℕ
deriving DecidableEq

/-- The client entry point `analyzeImage` on the valid-buffer, initialized-client path, with the
provider's response to attempt `n` given by `provider n` (a timeout of the race
appears as a provider error whose message contains `timeout`). Note the wrapped
per-attempt function applies `transformError` to each raw provider error before
`executeWithRetry` inspects it. -/
def analyzeImage (cb : CircuitBreaker) (now : ℤ)
    (provider : ℕ → Except VisionError α) : AnalyzeOutcome α :=
  let c := checkCircuitBreaker cb now
  if c.2 = .OPEN then ⟨c.1, .error circuitOpenError, 0, []⟩
  else
    let outcomes : ℕ → Except VisionError α := fun n =>
      match provider n with
      | .ok v => .ok v
      | .error e => .error (transformError e)
    let trace := executeWithRetry outcomes 3 1000
    match trace.result with
    | .ok v => ⟨recordSuccess c.1, .ok v, trace.attemptsMade, trace.delays⟩
    | .error e => ⟨recordFailure c.1 now, .error e, trace.attemptsMade, trace.delays⟩

/-- The transition `recordFailure` iterated (`n` consecutive failures at time `t`). -/
def recordFailureN : ℕ → CircuitBreaker → ℤ → CircuitBreaker
  | 0, cb, _ => cb
  | n + 1, cb, t => recordFailureN n (recordFailure cb t) t


/-- The dedup key `calculateRating` would use for a detected item, as a function
of the fields of the item alone. -/
def keyOfItem (it : DetectedItem) : String :=
  if it.matchType == "text" || it.matchType == "text-partial" then "text:" ++ it.item
  else "label:" ++ it.item ++ ":" ++ jsTrim (jsToLower it.originalLabel)

/-- The same key as a function of a `(matchType, keyword, sourceText)` triple. -/
def keyOfTriple (t k s : String) : String :=
  if t == "text" || t == "text-partial" then "text:" ++ k
  else "label:" ++ k ++ ":" ++ jsTrim (jsToLower s)

/-- Invariant of the scoring accumulator: every detected item's key has been
recorded in `usedKeywords`, and the items' keys are pairwise distinct. -/
def goodAcc (acc : ScoreAcc) : Prop :=
  (∀ it ∈ acc.detectedItems, keyOfItem it ∈ acc.usedKeywords) ∧
  (acc.detectedItems.map keyOfItem).Nodup


set_option maxRecDepth 400000

/-- Claim C1 (amended): the final score is clamped above at 100
(`Math.min(totalScore, 100)`); there is no lower clamp. -/
theorem score_le_100 (labels : List Label) (options : RatingOptions) :
    (calculateRating labels options).score ≤ 100 := by
  exact min_le_right _ _

/-- Claim C1 (counterexample): a single `gym` label with confidence 0 scores
`-5` — the gym-culture penalty drives the total below 0 and the final score is
not clamped below, refuting `0 ≤ finalScore`. -/
theorem score_can_be_negative :
    (calculateRating [⟨"gym", ji 0⟩] ⟨none⟩).score = -5 ∧
    (calculateRating [⟨"gym", ji 0⟩] ⟨none⟩).score < 0 := by
  constructor <;> decide

/-- Claim C2 (counterexample): on labels `matcha`/`tote bag` at confidence 1.0
the returned score is not 27 and the detected points are not `[15, 12]`. -/
theorem scenarioB_score_not_27 :
    (calculateRating [⟨"matcha", ji 1⟩, ⟨"tote bag", ji 1⟩] ⟨none⟩).score ≠ 27 ∧
    (calculateRating [⟨"matcha", ji 1⟩, ⟨"tote bag", ji 1⟩] ⟨none⟩).detectedItems.map
      (fun it => it.points) ≠ [15, 12] := by
  constructor <;> decide

/-- Claim C2 (amended): the exact matches score 15 and 18 (the later duplicate
definition of `tote bag`, 18, wins), no synergy rule fires, but the
two-category diversity bonus (+3) and the high-confidence bonus (+4) apply, so
the returned score is 40. -/
theorem scenarioB_actual_behavior :
    (calculateRating [⟨"matcha", ji 1⟩, ⟨"tote bag", ji 1⟩] ⟨none⟩).score = 40 ∧
    (calculateRating [⟨"matcha", ji 1⟩, ⟨"tote bag", ji 1⟩] ⟨none⟩).detectedItems =
      [⟨"matcha", 15, jsRound2 (ji 1), "exact", "matcha"⟩,
       ⟨"tote bag", 18, jsRound2 (ji 1), "exact", "tote bag"⟩] ∧
    calculateContextualAdjustments
      [⟨"matcha", 15, ji 1, "exact", "matcha"⟩, ⟨"tote bag", 18, ji 1, "exact", "tote bag"⟩]
      [⟨"matcha", ji 1⟩, ⟨"tote bag", ji 1⟩] =
      ⟨7, "Cross-category aesthetic awareness; High-confidence performative items detected"⟩ := by
  refine ⟨?_, ?_, ?_⟩ <;> decide

/-- Claim C3: a label whose normalized text is a dictionary key produces exactly
one match — exact, matchScore 1.0, points `round(weight * confidence)` — and no
semantic or fuzzy match is recorded for it. -/
theorem exact_match_short_circuit (labelText : String) (confidence : JNum)
    (allLabels : List Label) (w : JNum)
    (h : jsObjectGet performativeItemsList labelText = some w) :
    findMatches labelText confidence allLabels =
      [⟨labelText, "exact", ji 1, jsRound (jmul w confidence)⟩] := by
  simp [findMatches, h]

/-- Witness for C3 at the label `matcha` (weight 15, confidence 1.0). -/
theorem exact_match_short_circuit_witness :
    jsObjectGet performativeItemsList "matcha" = some (ji 15) ∧
    findMatches "matcha" (ji 1) [] =
      [⟨"matcha", "exact", ji 1, jsRound (jmul (ji 15) (ji 1))⟩] :=
  ⟨by decide, exact_match_short_circuit "matcha" (ji 1) [] (ji 15) (by decide)⟩

/-- Claim C5 (code bug): an `UNAUTHENTICATED` provider error is classified
non-retryable by `isNonRetryableError`, yet `analyzeImage` retries it the full
3 attempts (delays 1000ms and 2000ms) because the per-attempt wrapper applies
`transformError` before the retry loop inspects the error; the surfaced error
is even the generic `VISION_SERVICE_ERROR`. -/
theorem nonretryable_error_is_retried :
    isNonRetryableError ⟨"UNAUTHENTICATED: Invalid credentials", some "UNAUTHENTICATED"⟩ = true ∧
    (analyzeImage initCircuitBreaker 0 (fun _ =>
      (.error ⟨"UNAUTHENTICATED: Invalid credentials", some "UNAUTHENTICATED"⟩ :
        Except VisionError ℕ))).providerAttempts = 3 ∧
    (analyzeImage initCircuitBreaker 0 (fun _ =>
      (.error ⟨"UNAUTHENTICATED: Invalid credentials", some "UNAUTHENTICATED"⟩ :
        Except VisionError ℕ))).delays = [1000, 2000] ∧
    (analyzeImage initCircuitBreaker 0 (fun _ =>
      (.error ⟨"UNAUTHENTICATED: Invalid credentials", some "UNAUTHENTICATED"⟩ :
        Except VisionError ℕ))).result =
      .error ⟨"Vision API service error", some "VISION_SERVICE_ERROR"⟩ := by
  refine ⟨?_, ?_, ?_, ?_⟩ <;> decide

/-- Claim C8 (amended): `updatePerformativeItems` merges entries one by one
under lower-cased keys; with all weights in `[0, 100]` every entry is merged and
no error is raised, while a weight outside the range raises the error but
leaves the entries processed before it merged (no rollback). -/
theorem update_dictionary_partial_merge (d : List (String × JNum))
    (valid : List (String × JNum))
    (hv : ∀ p ∈ valid, (jlt p.2 (ji 0) || jlt (ji 100) p.2) = false) :
    updatePerformativeItems d valid =
      (d ++ valid.map fun p => (jsToLower p.1, p.2), none) ∧
    ∀ bad : String × JNum, (jlt bad.2 (ji 0) || jlt (ji 100) bad.2) = true →
      ∀ rest, updatePerformativeItems d (valid ++ bad :: rest) =
        (d ++ valid.map fun p => (jsToLower p.1, p.2),
         some ("Invalid score for item \"" ++ bad.1 ++ "\": must be a number between 0 and 100")) := by
  induction valid generalizing d with
  | nil =>
    refine ⟨by simp [updatePerformativeItems], ?_⟩
    intro bad hbad rest
    simp [updatePerformativeItems, hbad]
  | cons p ps ih =>
    have hp := hv p (List.mem_cons_self _ _)
    have hps : ∀ q ∈ ps, (jlt q.2 (ji 0) || jlt (ji 100) q.2) = false := fun q hq =>
      hv q (List.mem_cons_of_mem _ hq)
    obtain ⟨ih1, ih2⟩ := ih (d ++ [(jsToLower p.1, p.2)]) hps
    constructor
    · simpa [updatePerformativeItems, hp] using ih1
    · intro bad hbad rest
      have := ih2 bad hbad rest
      simpa [updatePerformativeItems, hp] using this

/-- Witness for C8: merging a valid entry succeeds with a lower-cased key, and
appending an out-of-range entry fails while keeping the first entry merged. -/
theorem update_dictionary_partial_merge_witness :
    updatePerformativeItems [] [("Matcha Latte", ji 21)] =
      ([("matcha latte", ji 21)], none) ∧
    updatePerformativeItems [] [("Matcha Latte", ji 21), ("bad", ji 200)] =
      ([("matcha latte", ji 21)],
       some "Invalid score for item \"bad\": must be a number between 0 and 100") :=
  ⟨(update_dictionary_partial_merge [] [("Matcha Latte", ji 21)] (by decide)).1,
   (update_dictionary_partial_merge [] [("Matcha Latte", ji 21)] (by decide)).2
     ("bad", ji 200) (by decide) []⟩

/-- Claim C8 (counterexample): `updatePerformativeItems` is not atomic — when a
later weight is invalid the call errors, yet the earlier entry is already in
the live dictionary, refuting "fails ... leaving the live dictionary unchanged". -/
theorem update_dictionary_not_atomic :
    (updatePerformativeItems performativeItemsList
      [("new key", ji 10), ("bad key", ji 200)]).2.isSome = true ∧
    jsObjectGet (updatePerformativeItems performativeItemsList
      [("new key", ji 10), ("bad key", ji 200)]).1 "new key" = some (ji 10) ∧
    jsObjectGet performativeItemsList "new key" = none := by
  refine ⟨?_, ?_, ?_⟩ <;> decide

/-- Claim C9: while the breaker is OPEN and the reset timeout has not elapsed,
`analyzeImage` rejects with the circuit-open error, performs no provider
attempt, and leaves every circuit-breaker field unchanged. -/
theorem circuit_open_rejects_without_side_effects {α : Type}
    (cb : CircuitBreaker) (now : ℤ) (provider : ℕ → Except VisionError α)
    (hstate : cb.state = .OPEN)
    (helapsed : now - cb.lastFailureTime.getD 0 < cb.resetTimeout) :
    analyzeImage cb now provider = ⟨cb, .error circuitOpenError, 0, []⟩ := by
  obtain ⟨st, fc, ft, rt, lft, sc, hot⟩ := cb
  simp only [CircuitBreaker.state] at hstate
  subst hstate
  have hnot : ¬ (now - (Option.getD lft 0) ≥ rt) := not_le.mpr helapsed
  simp [analyzeImage, checkCircuitBreaker, hnot]

/-- Witness for C9: a concrete OPEN breaker 1 second after its last failure. -/
theorem circuit_open_rejects_witness :
    analyzeImage ⟨.OPEN, 5, 5, 60000, some 1000, 0, 2⟩ 2000
      (fun _ => (.error ⟨"x", none⟩ : Except VisionError ℕ)) =
      ⟨⟨.OPEN, 5, 5, 60000, some 1000, 0, 2⟩, .error circuitOpenError, 0, []⟩ :=
  circuit_open_rejects_without_side_effects _ 2000 _ rfl (by decide)


/-- Every execution of the retry loop makes at least the attempt it starts at. -/
theorem retryAux_attempt_le {α : Type} (outcomes : ℕ → Except VisionError α)
    (m b : ℕ) : ∀ fuel attempt delays,
    attempt ≤ (retryAux outcomes m b attempt fuel delays).attemptsMade := by
  intro fuel
  induction fuel with
  | zero =>
    intro attempt delays
    simp only [retryAux]
    split
    · simp
    · split <;> simp
  | succ f ih =>
    intro attempt delays
    simp only [retryAux]
    split
    · simp
    · split
      · simp
      · split
        · exact Nat.le_trans (Nat.le_succ _) (ih _ _)
        · simp

/-- Claim C4: the circuit-breaker transition laws. (1) from CLOSED with a clean
failure count, 4 consecutive failures leave it CLOSED and the 5th
(`failureThreshold`) opens it; (2) while OPEN, once `resetTimeout` (60s) has
elapsed since `lastFailureTime`, the next call attempt moves it to HALF_OPEN
and is allowed through to the provider; (3) from HALF_OPEN, the first success
keeps it HALF_OPEN and the second (`halfOpenSuccessThreshold`) closes it with
both counters reset; (4) any single failure while HALF_OPEN reopens it. -/
theorem circuit_breaker_transition_laws (cb : CircuitBreaker) (t now : ℤ) :
    (cb.state = .CLOSED → cb.failureCount = 0 → cb.failureThreshold = 5 →
      (recordFailureN 4 cb t).state = .CLOSED ∧ (recordFailureN 5 cb t).state = .OPEN)
    ∧ (cb.state = .OPEN → cb.resetTimeout = 60000 →
        now - cb.lastFailureTime.getD 0 ≥ 60000 →
        checkCircuitBreaker cb now =
          ({ cb with state := .HALF_OPEN, successCount := 0 }, .HALF_OPEN)
        ∧ ∀ (α : Type) (provider : ℕ → Except VisionError α),
            1 ≤ (analyzeImage cb now provider).providerAttempts)
    ∧ (cb.state = .HALF_OPEN → cb.successCount = 0 → cb.halfOpenSuccessThreshold = 2 →
        (recordSuccess cb).state = .HALF_OPEN ∧
        recordSuccess (recordSuccess cb) =
          { cb with state := .CLOSED, failureCount := 0, successCount := 0 })
    ∧ (cb.state = .HALF_OPEN → (recordFailure cb t).state = .OPEN) := by
  obtain ⟨st, fc, ft, rt, lft, sc, hot⟩ := cb
  refine ⟨?_, ?_, ?_, ?_⟩
  · intro h1 h2 h3
    simp only [CircuitBreaker.state] at h1
    simp only [CircuitBreaker.failureCount] at h2
    simp only [CircuitBreaker.failureThreshold] at h3
    subst h1; subst h2; subst h3
    have e4 : recordFailureN 4 ⟨.CLOSED, 0, 5, rt, lft, sc, hot⟩ t =
        recordFailure (recordFailure (recordFailure (recordFailure
          ⟨.CLOSED, 0, 5, rt, lft, sc, hot⟩ t) t) t) t := rfl
    have e5 : recordFailureN 5 ⟨.CLOSED, 0, 5, rt, lft, sc, hot⟩ t =
        recordFailure (recordFailure (recordFailure (recordFailure (recordFailure
          ⟨.CLOSED, 0, 5, rt, lft, sc, hot⟩ t) t) t) t) t := rfl
    rw [e4, e5]
    simp [recordFailure]
  · intro h1 h2 h3
    simp only [CircuitBreaker.state] at h1
    simp only [CircuitBreaker.resetTimeout] at h2
    subst h1; subst h2
    simp only [CircuitBreaker.lastFailureTime] at h3
    have hcheck : checkCircuitBreaker ⟨.OPEN, fc, ft, 60000, lft, sc, hot⟩ now =
        (⟨.HALF_OPEN, fc, ft, 60000, lft, 0, hot⟩, .HALF_OPEN) := by
      simp [checkCircuitBreaker, h3]
    refine ⟨hcheck, ?_⟩
    intro α provider
    have h1le := retryAux_attempt_le (fun n =>
      match provider n with
      | .ok v => .ok v
      | .error e => .error (transformError e)) 3 1000 3 1 []
    simp [analyzeImage, hcheck, executeWithRetry]
    split <;> simpa using h1le
  · intro h1 h2 h3
    simp only [CircuitBreaker.state] at h1
    simp only [CircuitBreaker.successCount] at h2
    simp only [CircuitBreaker.halfOpenSuccessThreshold] at h3
    subst h1; subst h2; subst h3
    simp [recordSuccess]
  · intro h1
    simp only [CircuitBreaker.state] at h1
    subst h1
    simp [recordFailure]

/-- Witness for C4 at concrete breakers: five failures from the initial CLOSED
breaker open it (but not four), an OPEN breaker exactly 60s after its failure
admits the next call as HALF_OPEN, two successes close a fresh HALF_OPEN
breaker, and one failure reopens it. -/
theorem circuit_breaker_transition_laws_witness :
    ((recordFailureN 4 initCircuitBreaker 0).state = .CLOSED ∧
      (recordFailureN 5 initCircuitBreaker 0).state = .OPEN) ∧
    (checkCircuitBreaker ⟨.OPEN, 5, 5, 60000, some 0, 0, 2⟩ 60000 =
        (⟨.HALF_OPEN, 5, 5, 60000, some 0, 0, 2⟩, .HALF_OPEN) ∧
      1 ≤ (analyzeImage ⟨.OPEN, 5, 5, 60000, some 0, 0, 2⟩ 60000
        (fun _ => (.error ⟨"x", none⟩ : Except VisionError ℕ))).providerAttempts) ∧
    ((recordSuccess ⟨.HALF_OPEN, 3, 5, 60000, some 0, 0, 2⟩).state = .HALF_OPEN ∧
      recordSuccess (recordSuccess ⟨.HALF_OPEN, 3, 5, 60000, some 0, 0, 2⟩) =
        ⟨.CLOSED, 0, 5, 60000, some 0, 0, 2⟩) ∧
    (recordFailure ⟨.HALF_OPEN, 3, 5, 60000, some 0, 0, 2⟩ 7).state = .OPEN := by
  refine ⟨?_, ?_, ?_, ?_⟩
  · exact (circuit_breaker_transition_laws initCircuitBreaker 0 0).1 rfl rfl rfl
  · have h := (circuit_breaker_transition_laws ⟨.OPEN, 5, 5, 60000, some 0, 0, 2⟩ 0 60000).2.1
      rfl rfl (by decide)
    exact ⟨h.1, h.2 ℕ _⟩
  · exact (circuit_breaker_transition_laws ⟨.HALF_OPEN, 3, 5, 60000, some 0, 0, 2⟩ 0 0).2.2.1
      rfl rfl rfl
  · exact (circuit_breaker_transition_laws ⟨.HALF_OPEN, 3, 5, 60000, some 0, 0, 2⟩ 7 0).2.2.2 rfl


/-- Boolean character equality is symmetric. -/
theorem char_beq_comm (x y : Char) : (x == y) = (y == x) := by
  by_cases h : x = y
  · subst h; rfl
  · have h2 : ¬ y = x := fun e => h e.symm
    simp [h, h2]

/-- The Levenshtein matrix is symmetric in its two strings:
`matrix[i][j]` over `(s2, s1)` equals `matrix[j][i]` over `(s1, s2)`. -/
theorem levMatrix_symm (a b : List Char) :
    ∀ (n i j : ℕ), i + j ≤ n → levMatrix a b i j = levMatrix b a j i := by
  intro n
  induction n with
  | zero =>
    intro i j h
    have hi : i = 0 := by omega
    have hj : j = 0 := by omega
    subst hi; subst hj
    simp [levMatrix]
  | succ n ih =>
    intro i j h
    cases i with
    | zero => cases j <;> simp [levMatrix]
    | succ i =>
      cases j with
      | zero => simp [levMatrix]
      | succ j =>
        simp only [levMatrix]
        rw [char_beq_comm (b.getD j ' ') (a.getD i ' ')]
        by_cases hc : (a.getD i ' ' == b.getD j ' ') = true
        · simp only [hc, if_true]
          exact ih i j (by omega)
        · simp only [hc, if_false, Bool.false_eq_true]
          rw [ih i j (by omega), ih (i + 1) j (by omega), ih i (j + 1) (by omega)]
          exact congrArg (min _) (Nat.min_comm _ _)

/-- The function `levenshteinDistance` is symmetric in its two strings. -/
theorem levenshteinDistance_symm (s1 s2 : String) :
    levenshteinDistance s1 s2 = levenshteinDistance s2 s1 := by
  unfold levenshteinDistance
  exact levMatrix_symm s2.data s1.data (s2.length + s1.length) s2.length s1.length le_rfl

/-- Claim C10: the fuzzy similarity used for partial matching is commutative:
`calculateStringSimilarity a b = calculateStringSimilarity b a`. -/
theorem string_similarity_comm (str1 str2 : String) :
    calculateStringSimilarity str1 str2 = calculateStringSimilarity str2 str1 := by
  unfold calculateStringSimilarity
  rcases Nat.lt_trichotomy str1.length str2.length with h | h | h
  · have h1 : ¬ (str1.length > str2.length) := by omega
    have h2 : str2.length > str1.length := h
    simp [h1, h2]
  · have h1 : ¬ (str1.length > str2.length) := by omega
    have h2 : ¬ (str2.length > str1.length) := by omega
    simp only [h1, h2, if_false]
    rw [levenshteinDistance_symm str2 str1, h]
  · have h1 : str1.length > str2.length := h
    have h2 : ¬ (str2.length > str1.length) := by omega
    simp [h1, h2]


/-- Claim C7: characterization of `processTextAnnotations` for each phrase of
the text dictionary. If the phrase occurs in the concatenated lower-cased OCR
text, a full-weight `text` match (confidence 0.9) is emitted and every emitted
item for that phrase is a `text` match. Otherwise, a single-word phrase yields a
`text-partial` match (80% weight rounded, confidence 0.8) for each span that
contains it within `phrase length + 3` characters, while a multi-word phrase
yields nothing at all. -/
theorem text_pattern_matching (spans : List TextAnn) (p : String) (w : ℤ)
    (hp : (p, w) ∈ jsObjectEntries textPatternsList) :
    (strIncludes (jsToLower (joinSpace (spans.map fun a => a.description))) p = true →
      (⟨p, w, jq 9 10, "text", "Text: \"" ++ p ++ "\""⟩ : DetectedItem) ∈
        processTextAnnotations spans ∧
      ∀ it ∈ processTextAnnotations spans, it.item = p → it.matchType = "text") ∧
    (strIncludes (jsToLower (joinSpace (spans.map fun a => a.description))) p = false →
      ((p.splitOn " ").length = 1 →
        ∀ ann ∈ spans, strIncludes (jsToLower ann.description) p = true →
          (jsToLower ann.description).length ≤ p.length + 3 →
          (⟨p, jsRound (jmul (ji w) (jq 8 10)), jq 8 10, "text-partial",
            "Text: \"" ++ ann.description ++ "\""⟩ : DetectedItem) ∈
            processTextAnnotations spans) ∧
      ((p.splitOn " ").length ≠ 1 →
        ∀ it ∈ processTextAnnotations spans, it.item ≠ p)) := by
  constructor
  · intro hsub
    constructor
    · simp only [processTextAnnotations]
      rw [List.mem_flatMap]
      refine ⟨(p, w), hp, ?_⟩
      simp [hsub]
    · intro it hit hitem
      simp only [processTextAnnotations] at hit
      rw [List.mem_flatMap] at hit
      obtain ⟨pw, hpw, hmem⟩ := hit
      split at hmem
      · simp only [List.mem_singleton] at hmem
        rw [hmem]
      · next hg =>
        split at hmem
        · rw [List.mem_filterMap] at hmem
          obtain ⟨ann, hann, hsome⟩ := hmem
          split at hsome
          · cases hsome
            simp at hitem
            rw [hitem] at hg
            exact absurd hsub hg
          · exact absurd hsome (by simp)
        · simp at hmem
  · intro hsub
    constructor
    · intro hw ann hann hincl hlen
      simp only [processTextAnnotations]
      rw [List.mem_flatMap]
      refine ⟨(p, w), hp, ?_⟩
      simp only [hsub, Bool.false_eq_true, if_false, hw]
      rw [if_pos (by simp)]
      rw [List.mem_filterMap]
      refine ⟨ann, hann, ?_⟩
      simp [hincl, hlen]
    · intro hw it hit hitem
      simp only [processTextAnnotations] at hit
      rw [List.mem_flatMap] at hit
      obtain ⟨pw, hpw, hmem⟩ := hit
      split at hmem
      · next hg =>
        simp only [List.mem_singleton] at hmem
        rw [hmem] at hitem
        simp at hitem
        rw [hitem] at hg
        rw [hg] at hsub
        exact Bool.noConfusion hsub
      · next hg =>
        split at hmem
        · next hone =>
          rw [List.mem_filterMap] at hmem
          obtain ⟨ann2, hann2, hsome⟩ := hmem
          split at hsome
          · cases hsome
            simp at hitem
            rw [hitem] at hone
            simp at hone
            exact hw hone
          · exact absurd hsome (by simp)
        · simp at hmem


/-- Witness for C7: the phrase `a24` (weight 22) occurs in the OCR text of a
single span, so a full-weight `text` item is emitted. -/
theorem text_pattern_matching_witness :
    (("a24", (22 : ℤ)) ∈ jsObjectEntries textPatternsList) ∧
    strIncludes (jsToLower (joinSpace (([⟨"A24 films"⟩] : List TextAnn).map
      fun a => a.description))) "a24" = true ∧
    (⟨"a24", 22, jq 9 10, "text", "Text: \"a24\""⟩ : DetectedItem) ∈
      processTextAnnotations [⟨"A24 films"⟩] := by
  have hp : (("a24", (22 : ℤ)) ∈ jsObjectEntries textPatternsList) := by decide
  have hs : strIncludes (jsToLower (joinSpace (([⟨"A24 films"⟩] : List TextAnn).map
      fun a => a.description))) "a24" = true := by decide
  exact ⟨hp, hs, ((text_pattern_matching [⟨"A24 films"⟩] "a24" 22 hp).1 hs).1⟩

theorem goodAcc_addIfUnused {acc : ScoreAcc} {key : String} {pts : ℤ} {it : DetectedItem}
    (hk : keyOfItem it = key) (h : goodAcc acc) : goodAcc (addIfUnused key pts it acc) := by
  obtain ⟨h1, h2⟩ := h
  unfold addIfUnused
  by_cases hc : acc.usedKeywords.contains key = true
  · simp only [hc, if_true]
    exact ⟨h1, h2⟩
  · simp only [hc, if_false, Bool.false_eq_true]
    have hcmem : key ∉ acc.usedKeywords := by
      intro hmem
      exact hc (List.elem_eq_true_of_mem hmem)
    constructor
    · intro x hx
      simp only [List.mem_append, List.mem_singleton] at hx
      rcases hx with hx | hx
      · exact List.mem_cons_of_mem _ (h1 x hx)
      · rw [hx, hk]
        exact List.mem_cons_self _ _
    · rw [List.map_append, List.map_cons, List.map_nil, List.nodup_append]
      refine ⟨h2, by simp, ?_⟩
      intro x hx1 hx2
      simp only [List.mem_singleton] at hx2
      subst hx2
      obtain ⟨y, hy, hxy⟩ := List.mem_map.mp hx1
      rw [hk] at hxy
      exact hcmem (hxy ▸ h1 y hy)

/-- Every item `processTextAnnotations` emits is a `text` or `text-partial` match. -/
theorem processText_types (anns : List TextAnn) :
    ∀ it ∈ processTextAnnotations anns,
      it.matchType = "text" ∨ it.matchType = "text-partial" := by
  intro it hit
  simp only [processTextAnnotations] at hit
  rw [List.mem_flatMap] at hit
  obtain ⟨pw, hpw, hmem⟩ := hit
  split at hmem
  · simp only [List.mem_singleton] at hmem
    rw [hmem]
    left; rfl
  · split at hmem
    · rw [List.mem_filterMap] at hmem
      obtain ⟨ann, hann, hsome⟩ := hmem
      split at hsome
      · cases hsome
        right; rfl
      · exact absurd hsome (by simp)
    · simp at hmem

/-- Every match `findMatches` returns is `exact`, `semantic` or `partial`. -/
theorem findMatches_types (lt : String) (c : JNum) (ls : List Label) :
    ∀ m ∈ findMatches lt c ls,
      m.matchType = "exact" ∨ m.matchType = "semantic" ∨ m.matchType = "partial" := by
  intro m hm
  simp only [findMatches] at hm
  split at hm
  · simp only [List.mem_singleton] at hm
    rw [hm]
    left; rfl
  · have hm2 := List.take_subset _ _ hm
    have hm3 := (List.perm_insertionSort _ _).mem_iff.mp hm2
    split at hm3
    · rw [List.mem_filterMap] at hm3
      obtain ⟨kp, hkp, hsome⟩ := hm3
      split at hsome
      · cases hsome
        right; right; rfl
      · exact absurd hsome (by simp)
    · rw [List.mem_map] at hm3
      obtain ⟨sm, hsm, heq⟩ := hm3
      rw [← heq]
      right; left; rfl

theorem goodAcc_applyTextMatches : ∀ (ms : List DetectedItem) (acc : ScoreAcc),
    (∀ m ∈ ms, m.matchType = "text" ∨ m.matchType = "text-partial") → goodAcc acc →
    goodAcc (applyTextMatches ms acc) := by
  intro ms
  induction ms with
  | nil => intro acc _ h; exact h
  | cons m rest ih =>
    intro acc hms h
    simp only [applyTextMatches]
    refine ih _ (fun x hx => hms x (List.mem_cons_of_mem _ hx)) ?_
    refine goodAcc_addIfUnused ?_ h
    rcases hms m (List.mem_cons_self _ _) with ht | ht <;> simp [keyOfItem, ht]

theorem goodAcc_applyLabelMatches : ∀ (ms : List Match) (lbl : Label) (acc : ScoreAcc),
    (∀ m ∈ ms, m.matchType = "exact" ∨ m.matchType = "semantic" ∨ m.matchType = "partial") →
    goodAcc acc →
    goodAcc (applyLabelMatches (jsTrim (jsToLower lbl.description)) lbl ms acc) := by
  intro ms
  induction ms with
  | nil => intro lbl acc _ h; exact h
  | cons m rest ih =>
    intro lbl acc hms h
    simp only [applyLabelMatches]
    refine ih _ _ (fun x hx => hms x (List.mem_cons_of_mem _ hx)) ?_
    refine goodAcc_addIfUnused ?_ h
    rcases hms m (List.mem_cons_self _ _) with ht | ht | ht <;> simp [keyOfItem, ht]

theorem goodAcc_applyLabels : ∀ (ls allLabels : List Label) (acc : ScoreAcc),
    goodAcc acc → goodAcc (applyLabels allLabels ls acc) := by
  intro ls
  induction ls with
  | nil => intro _ acc h; exact h
  | cons lbl rest ih =>
    intro allLabels acc h
    simp only [applyLabels]
    split
    · exact ih _ _ h
    · exact ih _ _ (goodAcc_applyLabelMatches _ _ _ (findMatches_types _ _ _) h)

theorem countP_le_count_map (l : List DetectedItem) (p : DetectedItem → Bool) (b : String)
    (hf : ∀ x, p x = true → keyOfItem x = b) :
    l.countP p ≤ (l.map keyOfItem).count b := by
  induction l with
  | nil => simp
  | cons x t ih =>
    rw [List.countP_cons, List.map_cons, List.count_cons]
    by_cases hx : p x = true
    · rw [hf x hx]
      simp only [hx, if_true, beq_self_eq_true]
      omega
    · simp only [hx, if_false, Bool.false_eq_true]
      split <;> omega

/-- Claim C6: a given `(matchType, keyword, sourceText)` triple contributes to
the result at most once per request — the returned `detectedItems` list never
contains two entries with the same match type, keyword, and source text, since
every scored match consumes its dedup key out of `usedKeywords`. -/
theorem dedup_triple_at_most_once (labels : List Label) (options : RatingOptions)
    (t k s : String) :
    ((calculateRating labels options).detectedItems.countP fun it =>
      it.matchType == t && (it.item == k && it.originalLabel == s)) ≤ 1 := by
  obtain ⟨ota⟩ := options
  have hbase : ∀ acc : ScoreAcc, goodAcc acc →
      ((applyLabels labels labels acc).detectedItems.map
        (fun it => { it with confidence := jsRound2 it.confidence })).countP
        (fun it => it.matchType == t && (it.item == k && it.originalLabel == s)) ≤ 1 := by
    intro acc hacc
    have hg := goodAcc_applyLabels labels labels acc hacc
    rw [List.countP_map]
    refine le_trans (countP_le_count_map _ _ (keyOfTriple t k s) ?_) ?_
    · intro x hx
      simp only [Function.comp, Bool.and_eq_true, beq_iff_eq] at hx
      obtain ⟨hmt, hi, ho⟩ := hx
      simp only [keyOfItem, keyOfTriple, hmt, hi, ho]
    · exact List.nodup_iff_count_le_one.mp hg.2 _
  cases ota with
  | none =>
    simp only [calculateRating]
    exact hbase _ ⟨by simp, by simp⟩
  | some anns =>
    simp only [calculateRating]
    exact hbase _ (goodAcc_applyTextMatches _ _ (processText_types anns) ⟨by simp, by simp⟩)

end Six4
